import Mathlib

set_option maxRecDepth 100000

/-!
Verification development for the FloraGuard plant-care assistant.

The service layer (`geminiService.ts`) builds generative-AI requests for five
analysis kinds (disease, soil, seed, nutrient, weather) and three chat
personas, and deserializes the JSON-formatted text replies.  The component
layer (`NutrientAnalyzer`, `Weather`) invokes those calls and settles into a
result-or-error view state.

This file gives a shallow embedding of that layer:

- `Json` and `jsonParse` model the ECMAScript built-in `JSON.parse` on the
  JSON grammar (objects, arrays, strings with escapes, numbers, literals,
  whitespace; trailing garbage rejected).  Numeric literals are kept in
  token form: the integer part as an `Int` together with the raw fraction
  and exponent suffixes, which is exact for the integer-valued data the
  service traffics in.
- request records mirror the arguments each service function passes to
  `ai.models.generateContent` / `ai.chats.create`;
- response functions mirror the post-call text handling (`response.text`
  falsiness check, `JSON.parse`, the thrown error messages);
- `performAnalysis` and `performSearch` mirror the two component call sites,
  with the gateway outcome (network rejection or raw reply text) passed in
  explicitly.
-/

namespace FloraGuard

/-- JSON values as produced by `JSON.parse`.  A number keeps its integer
part as an `Int` plus the literal fraction and exponent suffixes (empty
when absent), so integer-valued fields are represented exactly. -/
inductive Json where
  | null
  | bool (b : Bool)
  | num (intPart : Int) (fracPart : String) (expPart : String)
  | str (s : String)
  | arr (elems : List Json)
  | obj (fields : List (String × Json))

/-- The double-quote character. -/
def dquote : Char := '\x22'

/-- The opening-brace character. -/
def lbraceChar : Char := '\x7b'

/-- The closing-brace character. -/
def rbraceChar : Char := '\x7d'

/-- JSON insignificant whitespace (space, newline, tab, carriage return). -/
def isWsChar (c : Char) : Bool :=
  c = ' ' || c = '\n' || c = '\t' || c = '\r'

/-- Drop leading JSON whitespace. -/
def skipWs : List Char → List Char
  | [] => []
  | c :: cs => if isWsChar c then skipWs cs else c :: cs

/-- Value of a hexadecimal digit, if the character is one. -/
def hexVal (c : Char) : Option Nat :=
  if c.isDigit then some (c.toNat - 48)
  else if 'a' ≤ c && c ≤ 'f' then some (c.toNat - 87)
  else if 'A' ≤ c && c ≤ 'F' then some (c.toNat - 55)
  else none

/-- Single-character JSON string escapes. -/
def unescapeChar (c : Char) : Option Char :=
  if c = dquote then some dquote
  else if c = '\\' then some '\\'
  else if c = '/' then some '/'
  else if c = 'b' then some (Char.ofNat 8)
  else if c = 'f' then some (Char.ofNat 12)
  else if c = 'n' then some '\n'
  else if c = 'r' then some '\r'
  else if c = 't' then some '\t'
  else none

/-- Parse the body of a JSON string after the opening quote, returning the
decoded characters and the remaining input.  Escapes are decoded; raw
control characters are rejected as `JSON.parse` rejects them. -/
def parseStringBody : Nat → List Char → Option (List Char × List Char)
  | 0, _ => none
  | f + 1, cs =>
    match cs with
    | [] => none
    | c :: rest =>
      if c = dquote then some ([], rest)
      else if c = '\\' then
        match rest with
        | [] => none
        | e :: rest2 =>
          if e = 'u' then
            match rest2 with
            | h1 :: h2 :: h3 :: h4 :: rest3 =>
              match hexVal h1, hexVal h2, hexVal h3, hexVal h4 with
              | some a, some b, some c2, some d =>
                (parseStringBody f rest3).map
                  (fun p => (Char.ofNat (((a * 16 + b) * 16 + c2) * 16 + d) :: p.1, p.2))
              | _, _, _, _ => none
            | _ => none
          else
            match unescapeChar e with
            | some u => (parseStringBody f rest2).map (fun p => (u :: p.1, p.2))
            | none => none
      else if c.toNat < 32 then none
      else (parseStringBody f rest).map (fun p => (c :: p.1, p.2))

/-- Longest prefix of decimal digits. -/
def takeDigits : List Char → List Char × List Char
  | [] => ([], [])
  | c :: cs =>
    if c.isDigit then
      let p := takeDigits cs
      (c :: p.1, p.2)
    else ([], c :: cs)

/-- Decimal value of a digit list. -/
def digitsToNat (ds : List Char) : Nat :=
  ds.foldl (fun n c => n * 10 + (c.toNat - 48)) 0

/-- Optional fraction suffix of a JSON number, kept as its literal text. -/
def parseFracPart : List Char → Option (String × List Char)
  | [] => some ("", [])
  | c :: rest =>
    if c = '.' then
      let p := takeDigits rest
      if p.1.isEmpty then none else some (String.mk (c :: p.1), p.2)
    else some ("", c :: rest)

/-- Optional exponent suffix of a JSON number, kept as its literal text. -/
def parseExpPart : List Char → Option (String × List Char)
  | [] => some ("", [])
  | c :: rest =>
    if c = 'e' || c = 'E' then
      match rest with
      | [] => none
      | s :: rest2 =>
        if s = '+' || s = '-' then
          let p := takeDigits rest2
          if p.1.isEmpty then none else some (String.mk (c :: s :: p.1), p.2)
        else
          let p := takeDigits rest
          if p.1.isEmpty then none else some (String.mk (c :: p.1), p.2)
    else some ("", c :: rest)

/-- Parse a JSON number token (sign, integer part without leading zeros,
optional fraction and exponent). -/
def parseNumber (cs0 : List Char) : Option (Json × List Char) :=
  let sp : Int × List Char :=
    match cs0 with
    | c :: rest => if c = '-' then (-1, rest) else (1, cs0)
    | [] => (1, [])
  match sp.2 with
  | [] => none
  | c :: rest =>
    if ! c.isDigit then none
    else if c = '0' && (rest.head?.map Char.isDigit).getD false then none
    else
      let ip := takeDigits (c :: rest)
      let ival : Int := sp.1 * Int.ofNat (digitsToNat ip.1)
      match parseFracPart ip.2 with
      | none => none
      | some fp =>
        match parseExpPart fp.2 with
        | none => none
        | some ep => some (Json.num ival fp.1 ep.1, ep.2)

/-- Parse the JSON literals `true`, `false`, `null`. -/
def parseLiteral : List Char → Option (Json × List Char)
  | 't' :: 'r' :: 'u' :: 'e' :: rest => some (Json.bool true, rest)
  | 'f' :: 'a' :: 'l' :: 's' :: 'e' :: rest => some (Json.bool false, rest)
  | 'n' :: 'u' :: 'l' :: 'l' :: rest => some (Json.null, rest)
  | _ => none

mutual

/-- Parse one JSON value (fuel-bounded recursive descent). -/
def parseValue : Nat → List Char → Option (Json × List Char)
  | 0, _ => none
  | f + 1, cs =>
    match skipWs cs with
    | [] => none
    | c :: rest =>
      if c = dquote then
        (parseStringBody (f + 1) rest).map (fun p => (Json.str (String.mk p.1), p.2))
      else if c = lbraceChar then
        parseObjectRest f rest
      else if c = '[' then
        parseArrayRest f rest
      else if c = '-' || c.isDigit then
        parseNumber (c :: rest)
      else
        parseLiteral (c :: rest)

/-- Parse an array body after the opening bracket. -/
def parseArrayRest : Nat → List Char → Option (Json × List Char)
  | 0, _ => none
  | f + 1, cs =>
    match skipWs cs with
    | [] => none
    | c :: rest =>
      if c = ']' then some (Json.arr [], rest)
      else
        match parseValue f (c :: rest) with
        | none => none
        | some (v, rest2) => parseArrayTail f [v] rest2

/-- Parse the remaining comma-separated array elements. -/
def parseArrayTail : Nat → List Json → List Char → Option (Json × List Char)
  | 0, _, _ => none
  | f + 1, acc, cs =>
    match skipWs cs with
    | [] => none
    | c :: rest =>
      if c = ']' then some (Json.arr acc.reverse, rest)
      else if c = ',' then
        match parseValue f rest with
        | none => none
        | some (v, rest2) => parseArrayTail f (v :: acc) rest2
      else none

/-- Parse an object body after the opening brace. -/
def parseObjectRest : Nat → List Char → Option (Json × List Char)
  | 0, _ => none
  | f + 1, cs =>
    match skipWs cs with
    | [] => none
    | c :: rest =>
      if c = rbraceChar then some (Json.obj [], rest)
      else
        match parseMember f (c :: rest) with
        | none => none
        | some (kv, rest2) => parseObjectTail f [kv] rest2

/-- Parse the remaining comma-separated object members. -/
def parseObjectTail : Nat → List (String × Json) → List Char → Option (Json × List Char)
  | 0, _, _ => none
  | f + 1, acc, cs =>
    match skipWs cs with
    | [] => none
    | c :: rest =>
      if c = rbraceChar then some (Json.obj acc.reverse, rest)
      else if c = ',' then
        match parseMember f rest with
        | none => none
        | some (kv, rest2) => parseObjectTail f (kv :: acc) rest2
      else none

/-- Parse one `"key": value` object member. -/
def parseMember : Nat → List Char → Option ((String × Json) × List Char)
  | 0, _ => none
  | f + 1, cs =>
    match skipWs cs with
    | [] => none
    | c :: rest =>
      if c = dquote then
        match parseStringBody (f + 1) rest with
        | none => none
        | some (key, rest2) =>
          match skipWs rest2 with
          | ':' :: rest3 =>
            match parseValue f rest3 with
            | none => none
            | some (v, rest4) => some ((String.mk key, v), rest4)
          | _ => none
      else none

end

/-- The embedding of `JSON.parse`: parse one value, allow only trailing
whitespace, otherwise fail (`JSON.parse` throws on any syntax error). -/
def jsonParse (s : String) : Option Json :=
  match parseValue (4 * s.length + 16) s.toList with
  | some (v, rest) => if (skipWs rest).isEmpty then some v else none
  | none => none

/-- Field lookup on a parsed JSON object (property access on the result). -/
def objLookup (v : Json) (key : String) : Option Json :=
  match v with
  | Json.obj fields => (fields.find? (fun p => p.1 = key)).map Prod.snd
  | _ => none

/-- Whether a parsed number token denotes zero (sign and exponent cannot
make a zero mantissa nonzero). -/
def numIsZero (intPart : Int) (fracPart : String) : Bool :=
  intPart = 0 && fracPart.toList.all (fun c => c = '0' || c = '.')

/-- ECMAScript truthiness of a `JSON.parse` result (`null`, `false`, `0`,
and the empty string are falsy; every object and array is truthy). -/
def jsTruthy : Json → Bool
  | Json.null => false
  | Json.bool b => b
  | Json.num i frac _ => ! numIsZero i frac
  | Json.str s => s ≠ ""
  | Json.arr _ => true
  | Json.obj _ => true

example : jsonParse "\x7b\x7d" = some (Json.obj []) := rfl
example : jsonParse "" = none := rfl
example : jsonParse "not json" = none := rfl
example : jsonParse " [1, -2, \"a b\", true, null] " =
    some (Json.arr [Json.num 1 "" "", Json.num (-2) "" "", Json.str "a b",
      Json.bool true, Json.null]) := rfl
example : jsonParse "\x7b\"a\": 1.50, \"b\": \x7b\"c\": []\x7d\x7d" =
    some (Json.obj [("a", Json.num 1 ".50" ""), ("b", Json.obj [("c", Json.arr [])])]) := rfl
example : jsonParse "\x7b\"a\": 1,\x7d" = none := rfl
example : jsonParse "01" = none := rfl
example : jsonParse "\"a\\nb\"" = some (Json.str "a\nb") := rfl

/-! ## Service layer (`geminiService.ts`)

Each exported service function is embedded as a pair: a request record (the
arguments it passes to the gateway client) and a response function (what it
does with the raw reply text).  Thrown `Error` objects are modelled by
`JsError`; the network outcome itself is supplied by the caller models
below. -/

/-- A thrown ECMAScript `Error`, identified by its message. -/
structure JsError where
  message : String
deriving DecidableEq

/-- The model identifier used by every service function. -/
def geminiModel : String := "gemini-3-flash-preview"

/-- The expert-pathologist persona instruction (used by `analyzePlantImage`
and `chatWithBotanist`). -/
def SYSTEM_INSTRUCTION : String :=
  "You are an expert vegetable plant pathologist, entomologist, and agronomist. \nYour goal is to identify diseases, pests, insects, and nutritional deficiencies in vegetable plant leaves accurately.\nProvide clear, professional advice.\n\nCRITICAL RULE: NEVER include raw JSON code, brackets like \x27\x7b\x27 or \x27\x7d\x27, or data structures in your conversational text output. Always speak in plain, natural language formatted with markdown (bolding, lists) for readability.\n\nProvide professional advice on:\n1. Identification: Name the specific disease or pest.\n2. Symptoms/Signs: Detail what is seen.\n3. Organic Cures: Natural ways to treat the issue.\n4. Chemical Solutions: Specific pesticides or fungicides.\n5. Prevention: How to stop it from returning.\n6. MANDATORY Purchase Links: For EVERY chemical treatment listed, you MUST provide a search/purchase URL."

/-- The Garden Master persona instruction (used by `chatWithGardenMaster`). -/
def GARDENING_MASTER_INSTRUCTION : String :=
  "You are the \"Garden Master,\" an expert horticulturist. \nWhen providing a guide, speak naturally. NEVER output raw JSON or code-like structures. \nAlways use the following bold headers:\n\n**Potting Mixture Ratio**\n**Watering Needs**\n**Sunlight Requirements**\n**Possible Diseases & Pests**\n**Flowering Season**\n**Fertilizer Time Period**\n**Maintenance: Repotting & Pruning**\n\nTone: Professional, warm, and helpful."

/-- The soil-scientist persona instruction (used by `analyzeSoilReport`). -/
def SOIL_ANALYSER_INSTRUCTION : String :=
  "You are an expert Agricultural Soil Scientist. \nAnalyze images of soil reports. Return the data strictly in JSON format matching the schema. \nIMPORTANT: All fields are required. If a value is unknown, use \"N/A\" for strings and an empty array [] for arrays. \nDo not include any conversational text outside the JSON block."

/-- The botanist persona instruction (used by `analyzeSeedImage`). -/
def SEED_ANALYSER_INSTRUCTION : String :=
  "You are an expert Botanist. \nAnalyze images of seeds. Return the data strictly in JSON format matching the schema.\nIMPORTANT: All fields are required.\nDo not include any conversational text outside the JSON block."

/-- The plant-physiologist persona instruction (used by
`analyzePlantNutrients`). -/
def NUTRIENT_ANALYSER_INSTRUCTION : String :=
  "You are an expert Plant Physiologist. \nAnalyze the plant image for nutrient deficiencies (Nitrogen, Phosphorus, Potassium, Calcium, Magnesium, etc.). \nEstimate a health score from 0 to 100 based on visual vigor and color.\nReturn the data strictly in JSON format matching the schema.\nIMPORTANT: All fields are required.\nDo not include any conversational text outside the JSON block."

/-- The soil-expert chat persona instruction (used by `chatWithSoilExpert`). -/
def SOIL_EXPERT_CHAT_INSTRUCTION : String :=
  "You are a professional Agricultural Soil Scientist. \nAnswer questions naturally. NEVER include raw JSON or data brackets in your chat replies. Provide actionable, practical advice."

/-- The user prompt of `analyzePlantImage`, embedding the disease schema. -/
def analyzePlantImagePrompt : String :=
  "Analyze this vegetable plant leaf image. Identify if it has a disease or a pest/bug infestation. Identify the plant, the disease/pest name, symptoms, organic cures, chemical treatments, purchase links, and prevention.\n\nReturn the data strictly in JSON format matching this schema:\n\x7b\n  \"plantName\": string,\n  \"diseaseName\": string, \n  \"severity\": \"Low\" | \"Medium\" | \"High\",\n  \"symptoms\": string[],\n  \"cures\": \x7b\n    \"organic\": string[],\n    \"chemical\": string[]\n  \x7d,\n  \"purchaseLinks\": [\n    \x7b \"pesticideName\": string, \"url\": string \x7d\n  ],\n  \"prevention\": string[]\n\x7d"

/-- The user prompt of `analyzeSoilReport`, embedding the soil schema. -/
def analyzeSoilReportPrompt : String :=
  "Analyze this soil test report image. Return data strictly in this JSON format:\n\x7b\n  \"phValue\": string,\n  \"nitrogen\": string,\n  \"phosphorus\": string,\n  \"potassium\": string,\n  \"organicMatter\": string,\n  \"suitableCrops\": string[],\n  \"improvementTips\": string[]\n\x7d"

/-- The user prompt of `analyzeSeedImage`, embedding the seed schema. -/
def analyzeSeedImagePrompt : String :=
  "Analyze this seed image. Identify the seed name, the plant it grows into, giving a description, list cultivation places (regions/countries), best soil type, and sowing/growth tips.\n\nReturn data strictly in this JSON format:\n\x7b\n  \"seedName\": string,\n  \"plantName\": string,\n  \"description\": string,\n  \"cultivationPlaces\": string[],\n  \"bestSoil\": string,\n  \"growthTips\": string[]\n\x7d"

/-- The user prompt of `analyzePlantNutrients`, embedding the nutrient
schema. -/
def analyzePlantNutrientsPrompt : String :=
  "Analyze this plant image for signs of nutrient deficiencies (e.g., Nitrogen, Phosphorus, Potassium, Iron, Magnesium, etc.).\n  \n  Provide a health score from 0 to 100 based on the plant\x27s visual vigor, leaf color, and structural integrity.\n  100 is perfectly healthy, 0 is dead.\n  \n  Return data strictly in this JSON format:\n  \x7b\n    \"healthScore\": number,\n    \"deficiencies\": string[],\n    \"symptoms\": string[],\n    \"recommendations\": string[]\n  \x7d"

/-- The user prompt of `getWeatherDetails` for a given location, embedding
the weather schema. -/
def getWeatherDetailsPrompt (location : String) : String :=
  "Find the current weather, 3-day forecast, and disaster risks (flood, cyclone) for "
    ++ location
    ++ ".\n  \n  Return the output strictly as a JSON object with the following structure. Do not use Markdown code blocks.\n  \x7b\n    \"locationName\": \"City, Region\",\n    \"current\": \x7b\n      \"temp\": \"string (e.g. 30°C)\",\n      \"condition\": \"string (e.g. Rainy)\",\n      \"humidity\": \"string\",\n      \"wind\": \"string\"\n    \x7d,\n    \"forecast\": [\n      \x7b \"day\": \"string\", \"temp\": \"string\", \"condition\": \"string\" \x7d,\n      \x7b \"day\": \"string\", \"temp\": \"string\", \"condition\": \"string\" \x7d,\n      \x7b \"day\": \"string\", \"temp\": \"string\", \"condition\": \"string\" \x7d\n    ],\n    \"risks\": \x7b\n      \"floodProbability\": \"Low\" | \"Medium\" | \"High\",\n      \"cycloneProbability\": \"Low\" | \"Medium\" | \"High\",\n      \"details\": \"string summary of risks\"\n    \x7d,\n    \"farmingTip\": \"string\"\n  \x7d"

/-- An inline binary attachment of a gateway request: MIME type label plus
base64-encoded payload. -/
structure InlineData where
  mimeType : String
  data : String
deriving DecidableEq

/-- The arguments a service function passes to
`ai.models.generateContent`. -/
structure GenerateRequest where
  model : String
  inline : Option InlineData
  promptText : String
  systemInstruction : Option String
  responseMimeType : Option String
  useGoogleSearch : Bool
deriving DecidableEq

/-- The request `analyzePlantImage` sends: the image labelled `image/jpeg`,
the disease prompt, the pathologist persona, JSON response mode. -/
def analyzePlantImageRequest (base64Image : String) : GenerateRequest :=
  { model := geminiModel
    inline := some ⟨"image/jpeg", base64Image⟩
    promptText := analyzePlantImagePrompt
    systemInstruction := some SYSTEM_INSTRUCTION
    responseMimeType := some "application/json"
    useGoogleSearch := false }

/-- The request `analyzeSoilReport` sends. -/
def analyzeSoilReportRequest (base64Image : String) : GenerateRequest :=
  { model := geminiModel
    inline := some ⟨"image/jpeg", base64Image⟩
    promptText := analyzeSoilReportPrompt
    systemInstruction := some SOIL_ANALYSER_INSTRUCTION
    responseMimeType := some "application/json"
    useGoogleSearch := false }

/-- The request `analyzeSeedImage` sends. -/
def analyzeSeedImageRequest (base64Image : String) : GenerateRequest :=
  { model := geminiModel
    inline := some ⟨"image/jpeg", base64Image⟩
    promptText := analyzeSeedImagePrompt
    systemInstruction := some SEED_ANALYSER_INSTRUCTION
    responseMimeType := some "application/json"
    useGoogleSearch := false }

/-- The request `analyzePlantNutrients` sends. -/
def analyzePlantNutrientsRequest (base64Image : String) : GenerateRequest :=
  { model := geminiModel
    inline := some ⟨"image/jpeg", base64Image⟩
    promptText := analyzePlantNutrientsPrompt
    systemInstruction := some NUTRIENT_ANALYSER_INSTRUCTION
    responseMimeType := some "application/json"
    useGoogleSearch := false }

/-- The request `getWeatherDetails` sends: no image, the weather prompt
with the caller-supplied location, no system instruction, google-search
grounding enabled. -/
def getWeatherDetailsRequest (location : String) : GenerateRequest :=
  { model := geminiModel
    inline := none
    promptText := getWeatherDetailsPrompt location
    systemInstruction := none
    responseMimeType := some "application/json"
    useGoogleSearch := true }

/-- Message thrown when `response.text` is falsy (empty or absent). -/
def noResponseMessage : String := "No response from AI"

/-- Message thrown when `JSON.parse` on the reply text throws. -/
def invalidFormatMessage : String := "Invalid response format from AI"

/-- Shared reply handling of the four image-analysis functions: a falsy
`response.text` throws `No response from AI`; otherwise `JSON.parse` is
applied and its result returned as-is, a syntax error being mapped to
`Invalid response format from AI`.  No field of the parsed value is
inspected. -/
def analyzeResponseText (raw : String) : Except JsError Json :=
  if raw = "" then Except.error ⟨noResponseMessage⟩
  else
    match jsonParse raw with
    | some v => Except.ok v
    | none => Except.error ⟨invalidFormatMessage⟩

/-- Reply handling of `analyzePlantImage`. -/
def analyzePlantImageResponse (raw : String) : Except JsError Json :=
  analyzeResponseText raw

/-- Reply handling of `analyzeSoilReport`. -/
def analyzeSoilReportResponse (raw : String) : Except JsError Json :=
  analyzeResponseText raw

/-- Reply handling of `analyzeSeedImage`. -/
def analyzeSeedImageResponse (raw : String) : Except JsError Json :=
  analyzeResponseText raw

/-- Reply handling of `analyzePlantNutrients`. -/
def analyzePlantNutrientsResponse (raw : String) : Except JsError Json :=
  analyzeResponseText raw

/-- Console diagnostics emitted by `analyzePlantNutrients`: on a parse
failure the raw offending text is logged next to a fixed label. -/
def analyzePlantNutrientsLog (raw : String) : List String :=
  if raw = "" then []
  else
    match jsonParse raw with
    | some _ => []
    | none => ["Failed to parse nutrient report:", raw]

/-- A `web` citation source inside gateway grounding metadata. -/
structure WebSource where
  uri : Option String
  title : Option String
deriving DecidableEq

/-- One grounding citation chunk. -/
structure GroundingChunk where
  web : Option WebSource
deriving DecidableEq

/-- The grounding metadata block of a search-augmented reply. -/
structure GroundingMetadata where
  groundingChunks : Option (List GroundingChunk)
deriving DecidableEq

/-- What `getWeatherDetails` returns: parsed data (or `null`) plus the
gateway's grounding metadata passed through untouched. -/
structure WeatherServiceResult where
  data : Option Json
  groundingMetadata : Option GroundingMetadata

/-- The literal text of an empty JSON object. -/
def emptyObjectText : String := "\x7b\x7d"

/-- Reply handling of `getWeatherDetails`: a falsy `response.text` is
replaced by the literal empty-object text, `JSON.parse` failures yield
`null` data instead of throwing, and the grounding metadata is forwarded
unfiltered. -/
def getWeatherDetails (raw : String) (meta : Option GroundingMetadata) :
    WeatherServiceResult :=
  let text := if raw = "" then emptyObjectText else raw
  { data := jsonParse text, groundingMetadata := meta }

/-- One turn of a chat transcript. -/
structure ChatTurn where
  role : String
  text : String
deriving DecidableEq

/-- The state a chat function hands to the gateway: the session created by
`ai.chats.create` (model, persona, initial turn list) plus the single
message then sent with `sendMessage`. -/
structure ChatRequest where
  model : String
  systemInstruction : Option String
  sessionHistory : List ChatTurn
  message : String
deriving DecidableEq

/-- The gateway request built by `chatWithBotanist`: a fresh session is
created with only the persona instruction — the `history` argument is not
passed to it — and only the new message is sent. -/
def chatWithBotanistRequest (history : List ChatTurn) (newMessage : String) :
    ChatRequest :=
  { model := geminiModel
    systemInstruction := some SYSTEM_INSTRUCTION
    sessionHistory := []
    message := newMessage }

/-- The gateway request built by `chatWithGardenMaster` (same shape, Garden
Master persona). -/
def chatWithGardenMasterRequest (history : List ChatTurn) (newMessage : String) :
    ChatRequest :=
  { model := geminiModel
    systemInstruction := some GARDENING_MASTER_INSTRUCTION
    sessionHistory := []
    message := newMessage }

/-- The gateway request built by `chatWithSoilExpert` (same shape, soil
expert persona). -/
def chatWithSoilExpertRequest (history : List ChatTurn) (newMessage : String) :
    ChatRequest :=
  { model := geminiModel
    systemInstruction := some SOIL_EXPERT_CHAT_INSTRUCTION
    sessionHistory := []
    message := newMessage }

/-! ## Component call sites

`performAnalysis` (NutrientAnalyzer component) and `performSearch` (Weather
component) are the two call sites that invoke the gateway functions and
absorb their outcomes into view state.  The gateway outcome is passed in
explicitly: `Except.error ()` models the promise rejecting (network
failure), `Except.ok raw` models a reply with raw text `raw` (empty string
for an empty payload). -/

/-- A saved analysis record (fields owned by this flow; the random `id` and
clock `timestamp` are outside the model). -/
structure HistoryItem where
  type : String
  plantName : String
  imageUrl : String
  nutrientData : Json

/-- View state of the NutrientAnalyzer component after an analysis run. -/
structure NutrientAnalyzerState where
  isAnalyzing : Bool
  result : Option Json
  error : Option String
  history : List HistoryItem

/-- The fixed user-facing message set by the NutrientAnalyzer `catch`
block, whatever error was thrown. -/
def nutrientFailureMessage : String :=
  "Failed to analyze nutrients. Please ensure the plant leaf is clearly visible."

/-- The history record `performAnalysis` builds on success. -/
def mkNutrientHistoryItem (base64 : String) (data : Json) : HistoryItem :=
  { type := "nutrient-analysis"
    plantName := "Plant Nutrient Check"
    imageUrl := base64
    nutrientData := data }

/-- `performAnalysis` of the NutrientAnalyzer component: runs
`analyzePlantNutrients`, re-throws on a falsy result, stores the data,
appends a history item via `onAddToHistory`; any thrown error (network,
empty payload, parse failure, falsy data) lands in the `catch` block, which
sets the fixed failure message and leaves the result empty. -/
def performAnalysis (base64 : String) (outcome : Except Unit String)
    (st : NutrientAnalyzerState) : NutrientAnalyzerState :=
  match outcome with
  | Except.error _ =>
    { isAnalyzing := false
      result := none
      error := some nutrientFailureMessage
      history := st.history }
  | Except.ok reply =>
    match analyzePlantNutrientsResponse reply with
    | Except.ok data =>
      if jsTruthy data then
        { isAnalyzing := false
          result := some data
          error := none
          history := st.history ++ [mkNutrientHistoryItem base64 data] }
      else
        { isAnalyzing := false
          result := none
          error := some nutrientFailureMessage
          history := st.history }
    | Except.error _ =>
      { isAnalyzing := false
        result := none
        error := some nutrientFailureMessage
        history := st.history }

/-- View state of the Weather component after a search. -/
structure WeatherViewState where
  loading : Bool
  weatherData : Option Json
  groundingMetadata : Option GroundingMetadata
  error : Option String

/-- The fixed message shown when weather data could not be parsed. -/
def weatherParseMessage : String := "Could not parse weather data. Please try again."

/-- The fixed message shown when the weather fetch itself failed. -/
def weatherFetchMessage : String := "Could not fetch weather data. Please try again."

/-- `performSearch` of the Weather component: calls `getWeatherDetails`; a
rejected promise lands in the `catch` block, falsy parsed data takes the
parse-message branch, and truthy data is stored together with the
grounding metadata.  Every field of the final state is set on every path,
so the result does not depend on the prior state. -/
def performSearch (outcome : Except Unit (String × Option GroundingMetadata)) :
    WeatherViewState :=
  match outcome with
  | Except.error _ =>
    { loading := false
      weatherData := none
      groundingMetadata := none
      error := some weatherFetchMessage }
  | Except.ok (raw, meta) =>
    let r := getWeatherDetails raw meta
    match r.data with
    | some d =>
      if jsTruthy d then
        { loading := false
          weatherData := some d
          groundingMetadata := r.groundingMetadata
          error := none }
      else
        { loading := false
          weatherData := none
          groundingMetadata := none
          error := some weatherParseMessage }
    | none =>
      { loading := false
        weatherData := none
        groundingMetadata := none
        error := some weatherParseMessage }

/-- Whether a grounding chunk has a resolvable link: the render guard
`chunk.web?.uri` is truthy, i.e. a `web` entry exists and its `uri` is a
nonempty string. -/
def isResolvableChunk (c : GroundingChunk) : Bool :=
  match c.web with
  | some w =>
    match w.uri with
    | some u => u ≠ ""
    | none => false
  | none => false

/-- The source-link list the Weather component renders from grounding
metadata: all citation chunks whose `web?.uri` guard is truthy, in order;
chunks without a resolvable link produce no entry. -/
def renderedSourceChunks (meta : Option GroundingMetadata) : List GroundingChunk :=
  match meta with
  | none => []
  | some m =>
    match m.groundingChunks with
    | none => []
    | some cs => cs.filter isResolvableChunk

/-- The extraction `handleFileUpload` applies to the reader's data URL:
splitting on commas and taking the second segment, absent when the string
has no comma. -/
def extractBase64 (dataUrl : String) : Option String :=
  (dataUrl.splitOn ",").get? 1

/-! ## Concrete fixtures

Gateway stub replies used to instantiate the theorems below on closed
inputs. -/

/-- The nutrient stub reply of the end-to-end scenario. -/
def nutrientStubReply : String :=
  "\x7b\"healthScore\":45,\"deficiencies\":[\"Nitrogen\"],\"symptoms\":[\"yellowing leaves\"],\"recommendations\":[\"apply nitrogen-rich fertilizer\"]\x7d"

/-- The parse of `nutrientStubReply`. -/
def nutrientStubJson : Json :=
  Json.obj [("healthScore", Json.num 45 "" ""),
    ("deficiencies", Json.arr [Json.str "Nitrogen"]),
    ("symptoms", Json.arr [Json.str "yellowing leaves"]),
    ("recommendations", Json.arr [Json.str "apply nitrogen-rich fertilizer"])]

/-- A reply whose deficiencies list is the sentinel `["None"]`. -/
def sentinelStubReply : String :=
  "\x7b\"healthScore\":95,\"deficiencies\":[\"None\"],\"symptoms\":[],\"recommendations\":[\"maintain current care\"]\x7d"

/-- The parse of `sentinelStubReply`. -/
def sentinelStubJson : Json :=
  Json.obj [("healthScore", Json.num 95 "" ""),
    ("deficiencies", Json.arr [Json.str "None"]),
    ("symptoms", Json.arr []),
    ("recommendations", Json.arr [Json.str "maintain current care"])]

/-- A reply whose health score lies outside the documented 0 to 100
domain. -/
def outOfRangeReply : String := "\x7b\"healthScore\":250\x7d"

/-- A grounding chunk with a resolvable link. -/
def resolvableChunkExample : GroundingChunk :=
  ⟨some ⟨some "https://example.com", some "Example"⟩⟩

/-- A grounding chunk without a resolvable link. -/
def unresolvableChunkExample : GroundingChunk :=
  ⟨some ⟨none, some "No Link"⟩⟩

example : jsonParse nutrientStubReply = some nutrientStubJson := rfl
example : jsonParse sentinelStubReply = some sentinelStubJson := rfl
example : jsonParse outOfRangeReply =
    some (Json.obj [("healthScore", Json.num 250 "" "")]) := rfl

/-! ## Claim theorems -/

/-- Claim C1, counterexample: the literal text of an empty JSON object is
syntactically valid JSON that lacks every required field of the nutrient
record, yet the nutrient analysis call returns it as a successful result
instead of failing with a ParseFailure — the parsed object has no
`healthScore` and no `deficiencies` field. -/
theorem nutrient_missing_field_not_rejected :
    analyzePlantNutrientsResponse emptyObjectText = Except.ok (Json.obj []) ∧
    objLookup (Json.obj []) "healthScore" = none ∧
    objLookup (Json.obj []) "deficiencies" = none :=
  ⟨rfl, rfl, rfl⟩

/-- Claim C1, amended: for every analysis kind, a nonempty reply that is
syntactically invalid JSON fails with the ParseFailure error, while any
syntactically valid JSON reply — schema-conformant or not — is returned as
the result unchanged; required fields are never checked. -/
theorem analysis_parse_strictness (raw : String) (h : raw ≠ "") :
    (jsonParse raw = none →
      analyzePlantNutrientsResponse raw = Except.error ⟨invalidFormatMessage⟩ ∧
      analyzePlantImageResponse raw = Except.error ⟨invalidFormatMessage⟩ ∧
      analyzeSoilReportResponse raw = Except.error ⟨invalidFormatMessage⟩ ∧
      analyzeSeedImageResponse raw = Except.error ⟨invalidFormatMessage⟩) ∧
    (∀ v, jsonParse raw = some v →
      analyzePlantNutrientsResponse raw = Except.ok v ∧
      analyzePlantImageResponse raw = Except.ok v ∧
      analyzeSoilReportResponse raw = Except.ok v ∧
      analyzeSeedImageResponse raw = Except.ok v) := by
  unfold analyzePlantNutrientsResponse analyzePlantImageResponse
    analyzeSoilReportResponse analyzeSeedImageResponse analyzeResponseText
  constructor
  · intro hp
    simp [h, hp]
  · intro v hv
    simp [h, hv]

/-- Witness for the amended C1 theorem at a concrete malformed reply. -/
theorem analysis_parse_strictness_witness :
    analyzePlantNutrientsResponse "not json" = Except.error ⟨invalidFormatMessage⟩ :=
  ((analysis_parse_strictness "not json" (by decide)).1 rfl).1

/-- Claim C2, counterexample: the chat functions do not forward the prior
turn history — with one prior user turn supplied, the session each
function creates for the gateway holds no turns at all, so that prior
`(role, text)` pair is absent from the request context. -/
theorem chat_history_dropped :
    (chatWithBotanistRequest [⟨"user", "hi"⟩] "next").sessionHistory = [] ∧
    (chatWithGardenMasterRequest [⟨"user", "hi"⟩] "next").sessionHistory = [] ∧
    (chatWithSoilExpertRequest [⟨"user", "hi"⟩] "next").sessionHistory = [] ∧
    (⟨"user", "hi"⟩ : ChatTurn) ∉
      (chatWithBotanistRequest [⟨"user", "hi"⟩] "next").sessionHistory := by
  refine ⟨rfl, rfl, rfl, ?_⟩
  simp [chatWithBotanistRequest]

/-- Claim C2, amended: each of the three chat functions ignores the turn
history it receives; every turn creates a fresh session whose context
holds only the persona system instruction, and only the new user message
is sent to the gateway. -/
theorem chat_request_fresh_session (hs : List ChatTurn) (m : String) :
    (chatWithBotanistRequest hs m).sessionHistory = [] ∧
    (chatWithBotanistRequest hs m).message = m ∧
    (chatWithBotanistRequest hs m).systemInstruction = some SYSTEM_INSTRUCTION ∧
    (chatWithGardenMasterRequest hs m).sessionHistory = [] ∧
    (chatWithGardenMasterRequest hs m).message = m ∧
    (chatWithGardenMasterRequest hs m).systemInstruction =
      some GARDENING_MASTER_INSTRUCTION ∧
    (chatWithSoilExpertRequest hs m).sessionHistory = [] ∧
    (chatWithSoilExpertRequest hs m).message = m ∧
    (chatWithSoilExpertRequest hs m).systemInstruction =
      some SOIL_EXPERT_CHAT_INSTRUCTION :=
  ⟨rfl, rfl, rfl, rfl, rfl, rfl, rfl, rfl, rfl⟩

/-- Claim C3, counterexample: an empty payload from the weather call does
not fail — the empty reply text is replaced by an empty-object literal, so
the call succeeds with parsed data, and the Weather search stores it as a
successful result with no error. -/
theorem weather_empty_payload_succeeds :
    (getWeatherDetails "" none).data = some (Json.obj []) ∧
    (performSearch (Except.ok ("", none))).weatherData = some (Json.obj []) ∧
    (performSearch (Except.ok ("", none))).error = none :=
  ⟨rfl, rfl, rfl⟩

/-- Claim C3, amended: the image-analysis calls distinguish the two
failures by message — an empty payload throws the no-response error and
malformed content throws the invalid-format error, two distinct messages —
but the weather call is the exception: an empty payload there yields a
successful empty-object result, and malformed content yields null data
rather than a thrown failure. -/
theorem gateway_failure_distinction (raw : String) (meta : Option GroundingMetadata)
    (h : raw ≠ "") (hp : jsonParse raw = none) :
    analyzePlantImageResponse "" = Except.error ⟨noResponseMessage⟩ ∧
    analyzePlantNutrientsResponse "" = Except.error ⟨noResponseMessage⟩ ∧
    analyzePlantImageResponse raw = Except.error ⟨invalidFormatMessage⟩ ∧
    noResponseMessage ≠ invalidFormatMessage ∧
    (getWeatherDetails "" meta).data = some (Json.obj []) ∧
    (getWeatherDetails raw meta).data = none := by
  refine ⟨rfl, rfl, ?_, by decide, rfl, ?_⟩
  · unfold analyzePlantImageResponse analyzeResponseText
    simp [h, hp]
  · unfold getWeatherDetails
    simp [h, hp]

/-- Witness for the amended C3 theorem at a concrete malformed reply. -/
theorem gateway_failure_distinction_witness :
    analyzePlantImageResponse "oops" = Except.error ⟨invalidFormatMessage⟩ ∧
    (getWeatherDetails "oops" none).data = none := by
  have h := gateway_failure_distinction "oops" none (by decide) rfl
  exact ⟨h.2.2.1, h.2.2.2.2.2⟩

/-- Claim C4: the source list the Weather view renders contains exactly the
grounding chunks with a resolvable link, in order; in particular, with two
citation chunks of which only the first is resolvable, the rendered list is
exactly that one entry. -/
theorem weather_grounding_filter :
    (∀ (m : GroundingMetadata) (cs : List GroundingChunk),
        m.groundingChunks = some cs →
        renderedSourceChunks (some m) = cs.filter isResolvableChunk) ∧
    (∀ c1 c2 : GroundingChunk,
        isResolvableChunk c1 = true → isResolvableChunk c2 = false →
        renderedSourceChunks (some ⟨some [c1, c2]⟩) = [c1]) := by
  constructor
  · intro m cs hm
    cases m with
    | mk gc =>
      cases hm
      rfl
  · intro c1 c2 h1 h2
    simp [renderedSourceChunks, List.filter_cons, h1, h2]

/-- Witness for C4 at concrete chunks: one resolvable, one without a link. -/
theorem weather_grounding_filter_witness :
    renderedSourceChunks
        (some ⟨some [resolvableChunkExample, unresolvableChunkExample]⟩) =
      [resolvableChunkExample] :=
  weather_grounding_filter.2 resolvableChunkExample unresolvableChunkExample rfl rfl

/-- Claim C5: both modelled entry points are total over every gateway
outcome (network error, empty payload, malformed reply, success) and
settle into exactly one of a usable result or a caller-visible error —
never both, never neither — with the busy flag cleared. -/
theorem entry_points_result_xor_error (b : String) (o1 : Except Unit String)
    (st : NutrientAnalyzerState)
    (o2 : Except Unit (String × Option GroundingMetadata)) :
    (performAnalysis b o1 st).result.isSome =
      ! (performAnalysis b o1 st).error.isSome ∧
    (performAnalysis b o1 st).isAnalyzing = false ∧
    (performSearch o2).weatherData.isSome = ! (performSearch o2).error.isSome ∧
    (performSearch o2).loading = false := by
  have ha : (performAnalysis b o1 st).result.isSome =
      (! (performAnalysis b o1 st).error.isSome) ∧
      (performAnalysis b o1 st).isAnalyzing = false := by
    cases o1 with
    | error u => exact ⟨rfl, rfl⟩
    | ok reply =>
      cases hr : analyzePlantNutrientsResponse reply with
      | error e => simp [performAnalysis, hr]
      | ok d =>
        by_cases ht : jsTruthy d
        · simp [performAnalysis, hr, ht]
        · simp [performAnalysis, hr, ht]
  have hw : (performSearch o2).weatherData.isSome =
      (! (performSearch o2).error.isSome) ∧ (performSearch o2).loading = false := by
    cases o2 with
    | error u => exact ⟨rfl, rfl⟩
    | ok p =>
      obtain ⟨raw, meta⟩ := p
      cases hd : jsonParse (if raw = "" then emptyObjectText else raw) with
      | none => simp [performSearch, getWeatherDetails, hd]
      | some d =>
        by_cases ht : jsTruthy d
        · simp [performSearch, getWeatherDetails, hd, ht]
        · simp [performSearch, getWeatherDetails, hd, ht]
  exact ⟨ha.1, ha.2, hw.1, hw.2⟩

/-- Claim C6: a history item is created exactly when the nutrient analysis
produces a result — on success the history grows by exactly the record
built from the image and the parsed data, and on any failure it is left
untouched. -/
theorem history_appended_iff_success (b : String) (o : Except Unit String)
    (st : NutrientAnalyzerState) :
    (∃ d, (performAnalysis b o st).result = some d ∧
      (performAnalysis b o st).history = st.history ++ [mkNutrientHistoryItem b d]) ∨
    ((performAnalysis b o st).result = none ∧
      (performAnalysis b o st).history = st.history) := by
  cases o with
  | error u => exact Or.inr ⟨rfl, rfl⟩
  | ok reply =>
    cases hr : analyzePlantNutrientsResponse reply with
    | error e =>
      right
      simp [performAnalysis, hr]
    | ok d =>
      by_cases ht : jsTruthy d
      · left
        exact ⟨d, by simp [performAnalysis, hr, ht], by simp [performAnalysis, hr, ht]⟩
      · right
        simp [performAnalysis, hr, ht]

/-- Claim C7: the nutrient reply is passed through untransformed — whatever
value the JSON parse yields is returned as the result with no rounding,
clamping, or range check on `healthScore` (the witness instantiates this
at the documented stub reply with score 45 and at an out-of-range score
of 250). -/
theorem nutrient_healthScore_passthrough (raw : String) (v : Json)
    (h : raw ≠ "") (hp : jsonParse raw = some v) :
    analyzePlantNutrientsResponse raw = Except.ok v := by
  unfold analyzePlantNutrientsResponse analyzeResponseText
  simp [h, hp]

/-- Witness for C7: the stub reply yields `healthScore` 45 and
deficiencies `["Nitrogen"]`, and an out-of-range score of 250 is returned
unchanged. -/
theorem nutrient_healthScore_passthrough_witness :
    analyzePlantNutrientsResponse nutrientStubReply = Except.ok nutrientStubJson ∧
    objLookup nutrientStubJson "healthScore" = some (Json.num 45 "" "") ∧
    objLookup nutrientStubJson "deficiencies" = some (Json.arr [Json.str "Nitrogen"]) ∧
    analyzePlantNutrientsResponse outOfRangeReply =
      Except.ok (Json.obj [("healthScore", Json.num 250 "" "")]) :=
  ⟨nutrient_healthScore_passthrough nutrientStubReply nutrientStubJson (by decide) rfl,
   rfl, rfl,
   nutrient_healthScore_passthrough outOfRangeReply
     (Json.obj [("healthScore", Json.num 250 "" "")]) (by decide) rfl⟩

/-- Claim C8: sentinel values pass through the parser verbatim — a reply
whose deficiencies field parses to the single string `"None"` yields a
result carrying exactly that sentinel list, never an emptied sequence. -/
theorem sentinel_preserved (raw : String) (v : Json) (h : raw ≠ "")
    (hp : jsonParse raw = some v)
    (hd : objLookup v "deficiencies" = some (Json.arr [Json.str "None"])) :
    ∃ w, analyzePlantNutrientsResponse raw = Except.ok w ∧
      objLookup w "deficiencies" = some (Json.arr [Json.str "None"]) := by
  refine ⟨v, ?_, hd⟩
  unfold analyzePlantNutrientsResponse analyzeResponseText
  simp [h, hp]

/-- Witness for C8 at a concrete sentinel reply. -/
theorem sentinel_preserved_witness :
    ∃ w, analyzePlantNutrientsResponse sentinelStubReply = Except.ok w ∧
      objLookup w "deficiencies" = some (Json.arr [Json.str "None"]) :=
  sentinel_preserved sentinelStubReply sentinelStubJson (by decide) rfl rfl

/-- Claim C9: on a parse failure the user-visible message is one fixed
string — for any two distinct malformed replies (and any images and prior
states) the surfaced error is identical and equal to the generic failure
message, while the raw offending text goes only to the console
diagnostics. -/
theorem parse_failure_generic_user_message (b1 b2 t1 t2 : String)
    (st1 st2 : NutrientAnalyzerState)
    (h1 : t1 ≠ "") (h2 : t2 ≠ "")
    (p1 : jsonParse t1 = none) (p2 : jsonParse t2 = none) :
    (performAnalysis b1 (Except.ok t1) st1).error =
      (performAnalysis b2 (Except.ok t2) st2).error ∧
    (performAnalysis b1 (Except.ok t1) st1).error = some nutrientFailureMessage ∧
    analyzePlantNutrientsLog t1 = ["Failed to parse nutrient report:", t1] := by
  have e1 : analyzePlantNutrientsResponse t1 = Except.error ⟨invalidFormatMessage⟩ := by
    unfold analyzePlantNutrientsResponse analyzeResponseText
    simp [h1, p1]
  have e2 : analyzePlantNutrientsResponse t2 = Except.error ⟨invalidFormatMessage⟩ := by
    unfold analyzePlantNutrientsResponse analyzeResponseText
    simp [h2, p2]
  refine ⟨?_, ?_, ?_⟩
  · simp [performAnalysis, e1, e2]
  · simp [performAnalysis, e1]
  · unfold analyzePlantNutrientsLog
    simp [h1, p1]

/-- Witness for C9 at two distinct concrete malformed replies. -/
theorem parse_failure_generic_user_message_witness :
    (performAnalysis "img1" (Except.ok "oops") ⟨false, none, none, []⟩).error =
      (performAnalysis "img2" (Except.ok "not json") ⟨false, none, none, []⟩).error ∧
    (performAnalysis "img1" (Except.ok "oops") ⟨false, none, none, []⟩).error =
      some nutrientFailureMessage ∧
    analyzePlantNutrientsLog "oops" = ["Failed to parse nutrient report:", "oops"] :=
  parse_failure_generic_user_message "img1" "img2" "oops" "not json"
    ⟨false, none, none, []⟩ ⟨false, none, none, []⟩
    (by decide) (by decide) rfl rfl

/-- Claim C10: every image-based analysis request labels its attachment
`image/jpeg`, whatever the actual bytes are — the MIME type is a fixed
constant of each request builder, so a PNG upload is still sent labelled
as JPEG. -/
theorem image_requests_fixed_jpeg_mime (img : String) :
    (analyzePlantImageRequest img).inline = some ⟨"image/jpeg", img⟩ ∧
    (analyzeSoilReportRequest img).inline = some ⟨"image/jpeg", img⟩ ∧
    (analyzeSeedImageRequest img).inline = some ⟨"image/jpeg", img⟩ ∧
    (analyzePlantNutrientsRequest img).inline = some ⟨"image/jpeg", img⟩ :=
  ⟨rfl, rfl, rfl, rfl⟩

end FloraGuard
